import Mathlib

/-!
Verification model of `custom_components/solis/service.py` (solis-sensor).

The module is embedded shallowly: wall-clock queries (`datetime.now()`)
are modelled by a `Clock` that yields a fresh instant per query, the
pluggable remote-API capability (`BaseAPI`) is a record of its observable
contract, Python `dict`s become insertion-ordered association lists, and
each operation returns, besides its updated state, the list of observable
effects (notify calls, scheduling requests, login/logout calls) it
performed.  Python exceptions (`AttributeError` from a missing attribute,
the missing `_api` attribute after an incompatible config) are modelled by
returning `none`.
-/

set_option autoImplicit false

namespace SolisService

/-- Instants are seconds on a local wall clock (`datetime`); arithmetic is on
seconds, so `timedelta(minutes=5)` is `300`. -/
abbrev Time := Nat

/-- `datetime.hour` of an instant. -/
def hourOf (t : Time) : Nat := t / 3600 % 24

/-- `datetime.minute` of an instant. -/
def minuteOf (t : Time) : Nat := t / 60 % 60

/-- A source of "current instant" readings: `f` is the underlying timeline
and `i` the number of `datetime.now()` calls made so far. -/
structure Clock where
  f : Nat → Time
  i : Nat

/-- One `datetime.now()` query: returns the current instant and advances the
clock. -/
def Clock.query (c : Clock) : Time × Clock := (c.f c.i, ⟨c.f, c.i + 1⟩)

/-- A clock frozen at instant `t` (time does not advance between queries). -/
def constClock (t : Time) : Clock := ⟨fun _ => t, 0⟩

/-- A heterogeneous attribute value of a `GinlongData` record: numeric
readings / state codes, or strings (the serial). -/
inductive AttrValue where
  | num (n : Int)
  | str (s : String)
deriving DecidableEq, Repr

/-- Modelled from the spec: the attribute-name constants imported from
`ginlong_const` (that module is not under src).  They are opaque distinct
keys; only their distinctness matters here. -/
def INVERTER_SERIAL : String := "inverter_serial"

/-- Modelled from the spec: opaque key of the energy-today attribute
(`ginlong_const.INVERTER_ENERGY_TODAY`). -/
def INVERTER_ENERGY_TODAY : String := "inverter_energy_today"

/-- Modelled from the spec: opaque key of the device-state attribute
(`ginlong_const.INVERTER_STATE`). -/
def INVERTER_STATE : String := "inverter_state"

/-- `SCHEDULE_OK` refresh constant (line 29 of service.py). -/
def SCHEDULE_OK : Nat := 2

/-- `SCHEDULE_NOK` refresh constant (line 30 of service.py). -/
def SCHEDULE_NOK : Nat := 1

/-- `HRS_BETWEEN_LOGIN = timedelta(hours=2)`, in seconds. -/
def HRS_BETWEEN_LOGIN : Nat := 7200

/-- `RETRY_DELAY_SECONDS = 60`. -/
def RETRY_DELAY_SECONDS : Nat := 60

/-- Status constant `ONLINE`. -/
def ONLINE : String := "Online"

/-- Status constant `OFFLINE`. -/
def OFFLINE : String := "Offline"

/-- A fetched device snapshot (`GinlongData`): an insertion-ordered mapping
from attribute name to value. -/
structure GinlongData where
  attrs : List (String × AttrValue)
deriving DecidableEq, Repr

/-- `getattr(data, key)`; `none` models the `AttributeError` a missing
attribute raises. -/
def GinlongData.getAttr (d : GinlongData) (key : String) : Option AttrValue :=
  d.attrs.lookup key

/-- `data.keys()`. -/
def GinlongData.keys (d : GinlongData) : List String :=
  d.attrs.map Prod.fst

/-- A `ServiceSubscriber`: the stored last-applied-timestamp `measured`
together with the concrete subclass's `do_update` behaviour (which may
refuse a value by returning `false`). -/
structure ServiceSubscriber where
  measured : Option Time
  do_update : AttrValue → Option Time → Bool

/-- `ServiceSubscriber.data_updated` (lines 52-57): the returned `Bool`
records whether `do_update` was invoked by this call. -/
def ServiceSubscriber.data_updated (s : ServiceSubscriber) (value : AttrValue)
    (last_updated : Option Time) : ServiceSubscriber × Bool :=
  if s.measured ≠ last_updated then
    if s.do_update value last_updated then
      ({ s with measured := last_updated }, true)
    else (s, true)
  else (s, false)

/-- A discovery cookie (`dict[str, Any]`); empty dicts are falsy in Python. -/
abbrev Cookie := List (String × Int)

/-- Discovery result: serial → attribute names (`capabilities`). -/
abbrev Capabilities := List (String × List String)

/-- An observable effect performed by a service operation. -/
inductive Event where
  | notify (serial attrName : String) (value : AttrValue) (timestamp : Option Time)
  | scheduledUpdate (minutes : Nat)
  | scheduledDiscovery (seconds : Nat)
  | callbackInvoked (cb : Nat) (caps : Capabilities) (cookie : Cookie)
  | apiLogin
  | apiLogout
deriving DecidableEq, Repr

/-- The remote-API capability (`BaseAPI`, an excluded collaborator),
modelled by its observable contract: a live `is_online` flag, whether a
login attempt would succeed, the optional serial list, and the per-serial
fetch outcome. -/
structure ApiState where
  is_online : Bool
  login_result : Bool
  inverters : Option (List String)
  fetch : String → Option GinlongData

/-- `api.logout()`: the capability goes offline. -/
def ApiState.logout (a : ApiState) : ApiState := { a with is_online := false }

/-- The `InverterService` state.  `api = none` models the instance whose
`_api` attribute was never assigned (incompatible config, lines 82-83). -/
structure InverterService where
  last_updated : Option Time
  logintime : Option Time
  subscriptions : List (String × List (String × ServiceSubscriber))
  discovery_callback : Option Nat
  discovery_cookie : Option Cookie
  api : Option ApiState

/-- The supplied portal configuration, tagged by recognized variant; each
recognized variant determines the API capability the constructor wraps it
in. -/
inductive PortalConfig where
  | ginlong (a : ApiState)
  | soliscloud (a : ApiState)
  | other

/-- `InverterService.__init__` (lines 71-83): an unrecognized config leaves
the instance without an API capability. -/
def InverterService.init (cfg : PortalConfig) : InverterService :=
  { last_updated := none
    logintime := none
    subscriptions := []
    discovery_callback := none
    discovery_cookie := none
    api := match cfg with
      | .ginlong a => some a
      | .soliscloud a => some a
      | .other => none }

/-- `InverterService.status` property (lines 204-207); `none` models the
`AttributeError` raised when `_api` was never assigned. -/
def InverterService.status (s : InverterService) : Option String :=
  s.api.map fun a => if a.is_online then ONLINE else OFFLINE

/-- Overwrite the value at key `k` of an association list (mutating a dict
entry in place, order preserved). -/
def updAssoc {α : Type} (l : List (String × α)) (k : String) (v : α) :
    List (String × α) :=
  l.map fun p => if p.1 = k then (k, v) else p

/-- `dict` insertion: overwrite in place when the key exists, else append. -/
def insertAssoc {α : Type} (l : List (String × α)) (k : String) (v : α) :
    List (String × α) :=
  if (l.map Prod.fst).contains k then updAssoc l k v else l ++ [(k, v)]

/-- Dispatch one value to the subscriber of `attrName`: the
`data_updated` call of line 159 plus the map update it entails. -/
def devStep (serial attrName : String) (sub : ServiceSubscriber)
    (v : AttrValue) (lastUpd : Option Time)
    (m : List (String × ServiceSubscriber)) :
    List (String × ServiceSubscriber) × Event :=
  ((updAssoc m attrName (sub.data_updated v lastUpd).1),
    Event.notify serial attrName v lastUpd)

/-- The value-correction block of `update_devices` (lines 137-158) for one
attribute: what happens to the mutable `value` before the dispatch of
line 159.  `none` models the `AttributeError` of
`getattr(data, INVERTER_STATE)` on a snapshot without the state attribute;
`some none` models `continue` (skip the dispatch); `some (some v)` means
line 159 dispatches `v`.  `now` is the current instant (the source queries
`datetime.now()` at lines 141 and 157 within the same dispatch). -/
def energyDecision (attrName : String) (value0 : AttrValue)
    (data : GinlongData) (now : Time)
    (m : List (String × ServiceSubscriber)) : Option (Option AttrValue) :=
  if attrName = INVERTER_ENERGY_TODAY then
    match data.getAttr INVERTER_STATE with
    | none => none
    | some st =>
      if st = AttrValue.num 2 ∧ hourOf now < 12 then
        some (some (AttrValue.num 0))
      else if st = AttrValue.num 1 ∧ hourOf now < 12 then
        match (match m.lookup INVERTER_STATE with
               | none => none
               | some sub2 => sub2.measured : Option Time) with
        | none => some (some value0)
        | some ts =>
          if hourOf ts = 0 ∧ minuteOf ts < 15 then
            some (some (AttrValue.num 0))
          else if now < ts + 300 then some none
          else some (some value0)
      else some (some value0)
  else some (some value0)

/-- The `for attribute in data.keys()` loop of `update_devices`
(lines 134-159), over the subscription map `m` of one serial.  `now` is the
current instant (the source queries `datetime.now()` at lines 141 and 157
within the same dispatch).  `none` models the `AttributeError` raised by
`getattr(data, INVERTER_STATE)` when the snapshot lacks the state
attribute. -/
def devLoop (serial : String) (data : GinlongData) (now : Time)
    (lastUpd : Option Time) :
    List String → List (String × ServiceSubscriber) →
    Option (List (String × ServiceSubscriber) × List Event)
  | [], m => some (m, [])
  | attrName :: rest, m =>
    match m.lookup attrName with
    | none => devLoop serial data now lastUpd rest m
    | some sub =>
      match data.getAttr attrName with
      | none => none
      | some value0 =>
        match energyDecision attrName value0 data now m with
        | none => none
        | some none => devLoop serial data now lastUpd rest m
        | some (some v) =>
          let r := devStep serial attrName sub v lastUpd m
          match devLoop serial data now lastUpd rest r.1 with
          | none => none
          | some (m3, evs) => some (m3, r.2 :: evs)

/-- `InverterService.update_devices` (lines 129-159).  `now` is the current
instant during the dispatch.  A snapshot whose serial value is not a
string, or is not a subscribed serial, is ignored (`serial not in
self._subscriptions`). -/
def InverterService.update_devices (s : InverterService) (data : GinlongData)
    (now : Time) : Option (InverterService × List Event) :=
  match data.getAttr INVERTER_SERIAL with
  | none => none
  | some (AttrValue.num _) => some (s, [])
  | some (AttrValue.str sn) =>
    match s.subscriptions.lookup sn with
    | none => some (s, [])
    | some m =>
      match devLoop sn data now s.last_updated data.keys m with
      | none => none
      | some (m2, evs) =>
        some ({ s with subscriptions := updAssoc s.subscriptions sn m2 }, evs)

/-- `InverterService._login` (lines 85-89): attempts a portal login only
when the capability is offline; on a successful login records the current
instant as `_logintime`; returns the capability's live `is_online` flag.
`none` models the `AttributeError` when `_api` was never assigned.  The
clock is queried only where the source evaluates `datetime.now()`
(line 88, on a successful fresh login). -/
def InverterService.login_op (s : InverterService) (c : Clock) :
    Option (InverterService × Bool × List Event × Clock) :=
  match s.api with
  | none => none
  | some a =>
    if a.is_online then some (s, true, [], c)
    else
      let r := a.login_result
      let a2 := { a with is_online := r }
      if r then
        let q := c.query
        some ({ s with api := some a2, logintime := some q.1 }, r,
          [Event.apiLogin], q.2)
      else some ({ s with api := some a2 }, r, [Event.apiLogin], c)

/-- `InverterService._logout` (lines 91-93): portal logout and
unconditional clearing of `_logintime`. -/
def InverterService.logout_op (s : InverterService) :
    Option (InverterService × List Event) :=
  s.api.map fun a =>
    ({ s with api := some a.logout, logintime := none }, [Event.apiLogout])

/-- The `for inverter_serial in inverters` loop of `_do_discover`
(lines 114-117): collect `data.keys()` for each serial whose fetch
succeeds. -/
def discoverLoop (a : ApiState) (serials : List String) : Capabilities :=
  serials.foldl
    (fun caps sn =>
      match a.fetch sn with
      | some data => insertAssoc caps sn data.keys
      | none => caps)
    []

/-- `InverterService._do_discover` (lines 106-118): after a successful
session check the login timestamp is overwritten with the current instant
(line 110) even if no fresh login happened. -/
def InverterService.do_discover (s : InverterService) (c : Clock) :
    Option (InverterService × Capabilities × List Event × Clock) :=
  match s.login_op c with
  | none => none
  | some (s1, ok, evs, c1) =>
    if ok then
      let q := c1.query
      let s2 := { s1 with logintime := some q.1 }
      match s2.api with
      | none => none
      | some a =>
        match a.inverters with
        | none => some (s2, [], evs, q.2)
        | some serials => some (s2, discoverLoop a serials, evs, q.2)
    else some (s1, [], evs, c1)

/-- `InverterService.schedule_discovery` (lines 196-202): stores the
callback and cookie and registers a future discovery invocation after
`seconds` seconds (the registration is the returned event; the host
scheduler itself is external). -/
def InverterService.schedule_discovery (s : InverterService)
    (cb : Option Nat) (ck : Option Cookie) (seconds : Nat) :
    InverterService × Event :=
  ({ s with discovery_callback := cb, discovery_cookie := ck },
    Event.scheduledDiscovery seconds)

/-- Python truthiness of the optional cookie dict (`if ... and
self._discovery_cookie`): an empty dict is falsy. -/
def cookieTruthy : Option Cookie → Bool
  | some k => !k.isEmpty
  | none => false

/-- `InverterService.async_discover` (lines 95-104): on a non-empty result
invoke the registered callback (when both callback and cookie are truthy),
otherwise reschedule a discovery with the same callback and cookie after
`RETRY_DELAY_SECONDS`. -/
def InverterService.async_discover (s : InverterService) (c : Clock) :
    Option (InverterService × List Event × Clock) :=
  match s.do_discover c with
  | none => none
  | some (s1, caps, evs, c1) =>
    if caps.isEmpty then
      let r := s1.schedule_discovery s1.discovery_callback s1.discovery_cookie
        RETRY_DELAY_SECONDS
      some (r.1, evs ++ [r.2], c1)
    else
      match s1.discovery_callback, s1.discovery_cookie with
      | some cb, some k =>
        if k.isEmpty then some (s1, evs, c1)
        else some (s1, evs ++ [Event.callbackInvoked cb caps k], c1)
      | _, _ => some (s1, evs, c1)

/-- `InverterService.schedule_update` (lines 190-194): registers a future
`async_update` invocation after `minute` minutes (the registration is the
returned event; the host scheduler itself is external). -/
def InverterService.schedule_update (minute : Nat) : Event :=
  Event.scheduledUpdate minute

/-- The `for inverter_serial in inverters` loop of `async_update`
(lines 169-179): per device, a successful fetch sets the status to
`SCHEDULE_OK`, stamps `_last_updated` with a fresh instant (line 174) and
dispatches the snapshot; a failed fetch sets the status to `SCHEDULE_NOK`
and logs the session out.  The loop continues over the remaining serials
in both cases. -/
def updateLoop (s : InverterService) (c : Clock) (update : Nat) :
    List String → Option (InverterService × Clock × Nat × List Event)
  | [] => some (s, c, update, [])
  | sn :: rest =>
    match s.api with
    | none => none
    | some a =>
      match a.fetch sn with
      | some data =>
        let q1 := c.query
        let s1 := { s with last_updated := some q1.1 }
        let q2 := q1.2.query
        match s1.update_devices data q2.1 with
        | none => none
        | some (s2, evs) =>
          match updateLoop s2 q2.2 SCHEDULE_OK rest with
          | none => none
          | some (s3, c3, u3, evs3) => some (s3, c3, u3, evs ++ evs3)
      | none =>
        match s.logout_op with
        | none => none
        | some (s1, evs1) =>
          match updateLoop s1 c SCHEDULE_NOK rest with
          | none => none
          | some (s3, c3, u3, evs3) => some (s3, c3, u3, evs1 ++ evs3)

/-- The re-login age check of `async_update` (lines 183-186): when a login
timestamp is recorded and it is more than `HRS_BETWEEN_LOGIN` old, log
out so the next cycle performs a fresh login.  `datetime.now()` is
evaluated only when a login timestamp exists. -/
def renewCheck (s : InverterService) (c : Clock) :
    Option (InverterService × List Event × Clock) :=
  match s.logintime with
  | none => some (s, [], c)
  | some lt =>
    let q := c.query
    if lt + HRS_BETWEEN_LOGIN < q.1 then
      match s.logout_op with
      | none => none
      | some (s1, evs) => some (s1, evs, q.2)
    else some (s, [], q.2)

/-- `InverterService.async_update` (lines 161-188): one polling cycle.
Returns the updated state, the emitted events in order, the returned
status and the advanced clock.  When the login succeeds but the serial
list is unavailable the source returns at line 168 without scheduling
anything. -/
def InverterService.async_update (s : InverterService) (c : Clock) :
    Option (InverterService × List Event × Nat × Clock) :=
  match s.login_op c with
  | none => none
  | some (s1, ok, evs0, c1) =>
    if ok then
      match s1.api with
      | none => none
      | some a =>
        match a.inverters with
        | none => some (s1, evs0, SCHEDULE_NOK, c1)
        | some serials =>
          match updateLoop s1 c1 SCHEDULE_NOK serials with
          | none => none
          | some (s2, c2, upd, evs1) =>
            match renewCheck s2 c2 with
            | none => none
            | some (s3, evs2, c3) =>
              some (s3, evs0 ++ evs1 ++
                [InverterService.schedule_update upd] ++ evs2, upd, c3)
    else
      match renewCheck s1 c1 with
      | none => none
      | some (s3, evs2, c3) =>
        some (s3, evs0 ++ [InverterService.schedule_update SCHEDULE_NOK] ++ evs2,
          SCHEDULE_NOK, c3)

/-- Recognizer of update-scheduling events. -/
def isSchedUpd : Event → Bool
  | .scheduledUpdate _ => true
  | _ => false

/-- Recognizer of discovery-scheduling events. -/
def isSchedDisc : Event → Bool
  | .scheduledDiscovery _ => true
  | _ => false

/-- The timestamps carried by the notify calls of an event trace, in
order. -/
def notifyTimestamps (evs : List Event) : List (Option Time) :=
  evs.filterMap fun e =>
    match e with
    | .notify _ _ _ ts => some ts
    | _ => none

/-- Case analysis of `login_op`: already online (no-op), fresh successful
login (stamps `logintime` with the current instant), or failed login. -/
theorem login_op_cases (s : InverterService) (c : Clock) (a : ApiState)
    (ha : s.api = some a) :
    (a.is_online = true ∧ s.login_op c = some (s, true, [], c)) ∨
    (a.is_online = false ∧ a.login_result = true ∧
      s.login_op c = some ({ s with
        api := some { a with is_online := true }
        logintime := some (c.f c.i) }, true, [Event.apiLogin], ⟨c.f, c.i + 1⟩)) ∨
    (a.is_online = false ∧ a.login_result = false ∧
      s.login_op c = some ({ s with
        api := some { a with is_online := false } },
        false, [Event.apiLogin], c)) := by
  unfold InverterService.login_op
  rw [ha]
  cases ho : a.is_online
  · cases hr : a.login_result
    · right; right
      exact ⟨rfl, rfl, by simp [ho, hr]⟩
    · right; left
      exact ⟨rfl, rfl, by simp [ho, hr, Clock.query]⟩
  · left
    exact ⟨rfl, by simp [ho]⟩

/-- A login attempt emits at most the `apiLogin` effect. -/
theorem login_op_events (s : InverterService) (c : Clock) :
    ∀ r ∈ s.login_op c, r.2.2.1 = [] ∨ r.2.2.1 = [Event.apiLogin] := by
  intro r hr
  cases ha : s.api with
  | none =>
    unfold InverterService.login_op at hr
    rw [ha] at hr
    exact absurd hr (by simp)
  | some a =>
    rcases login_op_cases s c a ha with ⟨-, he⟩ | ⟨-, -, he⟩ | ⟨-, -, he⟩ <;>
        rw [he] at hr <;> simp only [Option.mem_def, Option.some.injEq] at hr <;>
        subst hr
    · exact Or.inl rfl
    · exact Or.inr rfl
    · exact Or.inr rfl

/-- A login attempt leaves the subscription registry and the discovery
registration untouched, and does not change which serials the capability
reports nor its fetch behaviour. -/
theorem login_op_frame (s : InverterService) (c : Clock) :
    ∀ r ∈ s.login_op c,
      r.1.discovery_callback = s.discovery_callback ∧
      r.1.discovery_cookie = s.discovery_cookie ∧
      r.1.subscriptions = s.subscriptions ∧
      (∀ a, s.api = some a → ∃ a1, r.1.api = some a1 ∧
        a1.is_online = r.2.1 ∧ a1.inverters = a.inverters ∧ a1.fetch = a.fetch) := by
  intro r hr
  cases ha : s.api with
  | none =>
    unfold InverterService.login_op at hr
    rw [ha] at hr
    exact absurd hr (by simp)
  | some a =>
    rcases login_op_cases s c a ha with ⟨ho, he⟩ | ⟨-, -, he⟩ | ⟨-, -, he⟩ <;>
        rw [he] at hr <;> simp only [Option.mem_def, Option.some.injEq] at hr <;>
        subst hr
    · refine ⟨rfl, rfl, rfl, fun b hb => ?_⟩
      obtain rfl : a = b := Option.some.inj hb
      exact ⟨a, ha, ho, rfl, rfl⟩
    · refine ⟨rfl, rfl, rfl, fun b hb => ?_⟩
      obtain rfl : a = b := Option.some.inj hb
      exact ⟨_, rfl, rfl, rfl, rfl⟩
    · refine ⟨rfl, rfl, rfl, fun b hb => ?_⟩
      obtain rfl : a = b := Option.some.inj hb
      exact ⟨_, rfl, rfl, rfl, rfl⟩

/-- `update_devices` only rewrites the subscription registry: every other
field of the service survives a dispatch. -/
theorem update_devices_frame (s : InverterService) (data : GinlongData)
    (now : Time) :
    ∀ r ∈ s.update_devices data now,
      r.1.api = s.api ∧ r.1.last_updated = s.last_updated ∧
      r.1.logintime = s.logintime ∧
      r.1.discovery_callback = s.discovery_callback ∧
      r.1.discovery_cookie = s.discovery_cookie := by
  intro r hr
  unfold InverterService.update_devices at hr
  split at hr
  · exact absurd hr (by simp)
  · simp only [Option.mem_def, Option.some.injEq] at hr
    subst hr
    exact ⟨rfl, rfl, rfl, rfl, rfl⟩
  · split at hr
    · simp only [Option.mem_def, Option.some.injEq] at hr
      subst hr
      exact ⟨rfl, rfl, rfl, rfl, rfl⟩
    · split at hr
      · exact absurd hr (by simp)
      · simp only [Option.mem_def, Option.some.injEq] at hr
        subst hr
        exact ⟨rfl, rfl, rfl, rfl, rfl⟩

/-- A subscriber whose `do_update` always refuses the value. -/
def subFalse : ServiceSubscriber := ⟨some 0, fun _ _ => false⟩

/-- A fresh subscriber whose `do_update` always applies the value. -/
def subT : ServiceSubscriber := ⟨none, fun _ _ => true⟩

/-- A service with no API capability, no subscriptions and no discovery
registration, used as a base for concrete scenarios. -/
def baseSvc : InverterService :=
  { last_updated := none
    logintime := none
    subscriptions := []
    discovery_callback := none
    discovery_cookie := none
    api := none }

/-- C5, counterexample: the claim says two `notify` calls with equal
timestamps invoke `do_update` at most once, in every case.  But when
`do_update` refuses the value (returns `false`), the stored timestamp is
not advanced, so the second call with the same timestamp invokes
`do_update` again: here both calls report that `do_update` was invoked. -/
theorem claim_C5_counterexample :
    subFalse.measured = some 0 ∧
    (subFalse.data_updated (AttrValue.num 5) (some 1)).2 = true ∧
    ((subFalse.data_updated (AttrValue.num 5) (some 1)).1.data_updated
      (AttrValue.num 6) (some 1)).2 = true :=
  ⟨rfl, by decide, by decide⟩

/-- C5, amended: two `notify` calls with equal timestamps invoke
`do_update` at most once provided the first invocation applies the value
(`do_update` returns `true`); and when the supplied timestamp equals the
stored one, `notify` does nothing and does not call `do_update`. -/
theorem claim_C5_dedup_amended (s : ServiceSubscriber) (v v2 : AttrValue)
    (T : Option Time) (h : s.do_update v T = true) :
    ((s.data_updated v T).1.data_updated v2 T).2 = false ∧
    (s.measured = T →
      (s.data_updated v T).2 = false ∧ (s.data_updated v T).1 = s) := by
  unfold ServiceSubscriber.data_updated
  by_cases hm : s.measured = T
  · simp [hm]
  · simp [hm, h]

/-- C5, witness: the amended de-duplication at a concrete subscriber. -/
theorem claim_C5_witness :
    ((subT.data_updated (AttrValue.num 1) (some 5)).1.data_updated
      (AttrValue.num 2) (some 5)).2 = false ∧
    (subT.measured = some 5 →
      (subT.data_updated (AttrValue.num 1) (some 5)).2 = false ∧
      (subT.data_updated (AttrValue.num 1) (some 5)).1 = subT) :=
  claim_C5_dedup_amended subT (AttrValue.num 1) (AttrValue.num 2) (some 5) rfl

/-- C6: when `do_update` is invoked and refuses the value, the stored
last-applied-timestamp is unchanged and a later `notify` with the same
timestamp invokes `do_update` again; when it applies the value, the stored
timestamp becomes the supplied one. -/
theorem claim_C6_commit_semantics (s : ServiceSubscriber) (v v2 : AttrValue)
    (T : Option Time) (hm : s.measured ≠ T) :
    (s.do_update v T = false →
      (s.data_updated v T).1.measured = s.measured ∧
      ((s.data_updated v T).1.data_updated v2 T).2 = true) ∧
    (s.do_update v T = true →
      (s.data_updated v T).1.measured = T) := by
  unfold ServiceSubscriber.data_updated
  constructor
  · intro hf
    constructor
    · simp [hm, hf]
    · simp [hm, hf]
      split <;> rfl
  · intro ht
    simp [hm, ht]

/-- C6, witness: the commit semantics at a concrete refusing subscriber. -/
theorem claim_C6_witness :
    (subFalse.do_update (AttrValue.num 3) (some 2) = false →
      (subFalse.data_updated (AttrValue.num 3) (some 2)).1.measured =
        subFalse.measured ∧
      ((subFalse.data_updated (AttrValue.num 3) (some 2)).1.data_updated
        (AttrValue.num 4) (some 2)).2 = true) ∧
    (subFalse.do_update (AttrValue.num 3) (some 2) = true →
      (subFalse.data_updated (AttrValue.num 3) (some 2)).1.measured = some 2) :=
  claim_C6_commit_semantics subFalse (AttrValue.num 3) (AttrValue.num 4)
    (some 2) (by decide)

/-- C9: a configuration that is neither Ginlong nor Soliscloud leaves the
constructed instance without the API capability, and every operation that
touches the capability raises an `AttributeError` (modelled as `none`)
rather than silently succeeding: reading `status`, `_login`, and
`async_update`. -/
theorem claim_C9_incompatible_config :
    (InverterService.init PortalConfig.other).api = none ∧
    (InverterService.init PortalConfig.other).status = none ∧
    (∀ c : Clock, (InverterService.init PortalConfig.other).login_op c = none) ∧
    (∀ c : Clock, (InverterService.init PortalConfig.other).async_update c = none) :=
  ⟨rfl, rfl, fun _ => rfl, fun _ => rfl⟩

/-- C10: when the session is already authenticated, a discovery fetch still
overwrites the stored login timestamp with the current instant and performs
no fresh login (the event trace is empty), postponing the 2-hour
re-authentication deadline without an actual login. -/
theorem claim_C10_discovery_overwrites_logintime (s : InverterService)
    (a : ApiState) (c : Clock) (ha : s.api = some a)
    (ho : a.is_online = true) :
    ∃ s2 caps c2, s.do_discover c = some (s2, caps, [], c2) ∧
      s2.logintime = some (c.f c.i) := by
  have he : s.login_op c = some (s, true, [], c) := by
    rcases login_op_cases s c a ha with ⟨-, h⟩ | ⟨hf, -, -⟩ | ⟨hf, -, -⟩
    · exact h
    · rw [ho] at hf; exact absurd hf (by simp)
    · rw [ho] at hf; exact absurd hf (by simp)
  cases hinv : a.inverters with
  | none =>
    refine ⟨{ s with logintime := some (c.f c.i) }, [], ⟨c.f, c.i + 1⟩, ?_, rfl⟩
    unfold InverterService.do_discover
    rw [he]
    simp [Clock.query, ha, hinv]
  | some serials =>
    refine ⟨{ s with logintime := some (c.f c.i) }, discoverLoop a serials,
      ⟨c.f, c.i + 1⟩, ?_, rfl⟩
    unfold InverterService.do_discover
    rw [he]
    simp [Clock.query, ha, hinv]

/-- An online capability that reports an empty serial list. -/
def apiDiscW : ApiState :=
  { is_online := true, login_result := true, inverters := some []
    fetch := fun _ => none }

/-- A service holding `apiDiscW`. -/
def svcDiscW : InverterService := { baseSvc with api := some apiDiscW }

/-- C10, witness: the logintime overwrite at a concrete already-online
service. -/
theorem claim_C10_witness :
    ∃ s2 caps c2,
      svcDiscW.do_discover (constClock 4) = some (s2, caps, [], c2) ∧
      s2.logintime = some ((constClock 4).f (constClock 4).i) :=
  claim_C10_discovery_overwrites_logintime svcDiscW apiDiscW (constClock 4)
    rfl rfl

/-- A canonical three-attribute snapshot: serial, energy-today reading
`raw`, device-state code `st` (the serial attribute first, so the state
subscriber's stored timestamp is read before the state attribute itself is
dispatched, as in a portal snapshot). -/
def mkData3 (sn : String) (raw st : Int) : GinlongData :=
  ⟨[(INVERTER_SERIAL, AttrValue.str sn),
    (INVERTER_ENERGY_TODAY, AttrValue.num raw),
    (INVERTER_STATE, AttrValue.num st)]⟩

/-- A service with subscribers for the energy-today and state attributes of
serial `sn`, and cycle timestamp `lu`. -/
def mkSvc2 (sn : String) (subE subS : ServiceSubscriber) (lu : Option Time) :
    InverterService :=
  { baseSvc with
    last_updated := lu
    subscriptions := [(sn, [(INVERTER_ENERGY_TODAY, subE),
      (INVERTER_STATE, subS)])] }

/-- A service subscribing only the energy-today attribute of serial `sn`
(no state subscriber, so the `KeyError` path of lines 146-150 is taken). -/
def mkSvc1 (sn : String) (subE : ServiceSubscriber) (lu : Option Time) :
    InverterService :=
  { baseSvc with
    last_updated := lu
    subscriptions := [(sn, [(INVERTER_ENERGY_TODAY, subE)])] }

/-- C2: before local noon with state code 2 ("standby/off") the dispatched
energy-today value is forced to 0; with a state code other than 1 and 2
("running"), or at or after local noon, the raw value is passed through
unchanged, for every input value. -/
theorem claim_C2_energy_today_standby (sn : String) (raw : Int)
    (subE subS : ServiceSubscriber) (lu : Option Time) (now : Time) :
    (hourOf now < 12 →
      ((mkSvc2 sn subE subS lu).update_devices (mkData3 sn raw 2) now).map
          (fun r => r.2) =
        some [Event.notify sn INVERTER_ENERGY_TODAY (AttrValue.num 0) lu,
              Event.notify sn INVERTER_STATE (AttrValue.num 2) lu]) ∧
    (∀ st : Int, st ≠ 1 → st ≠ 2 →
      ((mkSvc2 sn subE subS lu).update_devices (mkData3 sn raw st) now).map
          (fun r => r.2) =
        some [Event.notify sn INVERTER_ENERGY_TODAY (AttrValue.num raw) lu,
              Event.notify sn INVERTER_STATE (AttrValue.num st) lu]) ∧
    (∀ st : Int, 12 ≤ hourOf now →
      ((mkSvc2 sn subE subS lu).update_devices (mkData3 sn raw st) now).map
          (fun r => r.2) =
        some [Event.notify sn INVERTER_ENERGY_TODAY (AttrValue.num raw) lu,
              Event.notify sn INVERTER_STATE (AttrValue.num st) lu]) := by
  refine ⟨fun ham => ?_, fun st hst1 hst2 => ?_, fun st hpm => ?_⟩
  · simp [InverterService.update_devices, mkSvc2, mkData3, baseSvc,
      GinlongData.getAttr, GinlongData.keys, devLoop, devStep, energyDecision,
      updAssoc, List.lookup, INVERTER_SERIAL, INVERTER_ENERGY_TODAY,
      INVERTER_STATE, ham]
  · simp [InverterService.update_devices, mkSvc2, mkData3, baseSvc,
      GinlongData.getAttr, GinlongData.keys, devLoop, devStep, energyDecision,
      updAssoc, List.lookup, INVERTER_SERIAL, INVERTER_ENERGY_TODAY,
      INVERTER_STATE, hst1, hst2]
  · have ham : ¬ hourOf now < 12 := by omega
    simp [InverterService.update_devices, mkSvc2, mkData3, baseSvc,
      GinlongData.getAttr, GinlongData.keys, devLoop, devStep, energyDecision,
      updAssoc, List.lookup, INVERTER_SERIAL, INVERTER_ENERGY_TODAY,
      INVERTER_STATE, ham]

/-- C2, witness: the standby branch at state 2, 09:00. -/
theorem claim_C2_witness :
    ((mkSvc2 "SN" subT subT (some 1000)).update_devices
        (mkData3 "SN" 7 2) 32400).map (fun r => r.2) =
      some [Event.notify "SN" INVERTER_ENERGY_TODAY (AttrValue.num 0) (some 1000),
            Event.notify "SN" INVERTER_STATE (AttrValue.num 2) (some 1000)] :=
  (claim_C2_energy_today_standby "SN" 7 subT subT (some 1000) 32400).1 (by decide)

/-- C1: before local noon with state code 1 ("starting up"), the dispatch
of the energy-today attribute inspects the state subscriber's stored
timestamp: a timestamp in the first 15 minutes after local midnight forces
the value to 0; otherwise a timestamp whose 5-minute grace window still
covers the current instant suppresses the energy-today dispatch entirely
(its notify call is absent from the trace while the other attributes are
still dispatched); otherwise the raw value passes through; and with no
stored timestamp, or no state subscriber at all, the raw value passes
through. -/
theorem claim_C1_energy_today_starting (sn : String) (raw : Int)
    (subE subS : ServiceSubscriber) (lu : Option Time) (now : Time)
    (ham : hourOf now < 12) :
    (∀ ts : Time, subS.measured = some ts → hourOf ts = 0 → minuteOf ts < 15 →
      ((mkSvc2 sn subE subS lu).update_devices (mkData3 sn raw 1) now).map
          (fun r => r.2) =
        some [Event.notify sn INVERTER_ENERGY_TODAY (AttrValue.num 0) lu,
              Event.notify sn INVERTER_STATE (AttrValue.num 1) lu]) ∧
    (∀ ts : Time, subS.measured = some ts →
      ¬(hourOf ts = 0 ∧ minuteOf ts < 15) → now < ts + 300 →
      ((mkSvc2 sn subE subS lu).update_devices (mkData3 sn raw 1) now).map
          (fun r => r.2) =
        some [Event.notify sn INVERTER_STATE (AttrValue.num 1) lu]) ∧
    (∀ ts : Time, subS.measured = some ts →
      ¬(hourOf ts = 0 ∧ minuteOf ts < 15) → ¬ now < ts + 300 →
      ((mkSvc2 sn subE subS lu).update_devices (mkData3 sn raw 1) now).map
          (fun r => r.2) =
        some [Event.notify sn INVERTER_ENERGY_TODAY (AttrValue.num raw) lu,
              Event.notify sn INVERTER_STATE (AttrValue.num 1) lu]) ∧
    (subS.measured = none →
      ((mkSvc2 sn subE subS lu).update_devices (mkData3 sn raw 1) now).map
          (fun r => r.2) =
        some [Event.notify sn INVERTER_ENERGY_TODAY (AttrValue.num raw) lu,
              Event.notify sn INVERTER_STATE (AttrValue.num 1) lu]) ∧
    (((mkSvc1 sn subE lu).update_devices (mkData3 sn raw 1) now).map
          (fun r => r.2) =
      some [Event.notify sn INVERTER_ENERGY_TODAY (AttrValue.num raw) lu]) := by
  refine ⟨fun ts hms h0 h15 => ?_, fun ts hms hn hg => ?_,
    fun ts hms hn hg => ?_, fun hms => ?_, ?_⟩
  · simp [InverterService.update_devices, mkSvc2, mkData3, baseSvc,
      GinlongData.getAttr, GinlongData.keys, devLoop, devStep, energyDecision,
      updAssoc, List.lookup, INVERTER_SERIAL, INVERTER_ENERGY_TODAY,
      INVERTER_STATE, ham, hms, h0, h15]
  · simp [InverterService.update_devices, mkSvc2, mkData3, baseSvc,
      GinlongData.getAttr, GinlongData.keys, devLoop, devStep, energyDecision,
      updAssoc, List.lookup, INVERTER_SERIAL, INVERTER_ENERGY_TODAY,
      INVERTER_STATE, ham, hms, hn, hg]
  · simp [InverterService.update_devices, mkSvc2, mkData3, baseSvc,
      GinlongData.getAttr, GinlongData.keys, devLoop, devStep, energyDecision,
      updAssoc, List.lookup, INVERTER_SERIAL, INVERTER_ENERGY_TODAY,
      INVERTER_STATE, ham, hms, hn, hg]
  · simp [InverterService.update_devices, mkSvc2, mkData3, baseSvc,
      GinlongData.getAttr, GinlongData.keys, devLoop, devStep, energyDecision,
      updAssoc, List.lookup, INVERTER_SERIAL, INVERTER_ENERGY_TODAY,
      INVERTER_STATE, ham, hms]
  · simp [InverterService.update_devices, mkSvc1, mkData3, baseSvc,
      GinlongData.getAttr, GinlongData.keys, devLoop, devStep, energyDecision,
      updAssoc, List.lookup, INVERTER_SERIAL, INVERTER_ENERGY_TODAY,
      INVERTER_STATE, ham]

/-- A state subscriber whose stored timestamp is 00:05 local. -/
def subS300 : ServiceSubscriber := ⟨some 300, fun _ _ => true⟩

/-- C1, witness: the hybrid midnight-reset branch at state 1, stored state
timestamp 00:05, 09:00. -/
theorem claim_C1_witness :
    ((mkSvc2 "SN" subT subS300 (some 1000)).update_devices
        (mkData3 "SN" 7 1) 32400).map (fun r => r.2) =
      some [Event.notify "SN" INVERTER_ENERGY_TODAY (AttrValue.num 0) (some 1000),
            Event.notify "SN" INVERTER_STATE (AttrValue.num 1) (some 1000)] :=
  (claim_C1_energy_today_starting "SN" 7 subT subS300 (some 1000) 32400
    (by decide)).1 300 rfl (by decide) (by decide)

/-- Every effect of a device dispatch loop is a notify call for the
dispatched serial carrying the supplied cycle timestamp. -/
theorem devLoop_events (serial : String) (data : GinlongData) (now : Time)
    (lastUpd : Option Time) :
    ∀ keys m, ∀ r ∈ devLoop serial data now lastUpd keys m,
      ∀ e ∈ r.2, ∃ a v, e = Event.notify serial a v lastUpd := by
  intro keys
  induction keys with
  | nil =>
    intro m r hr
    simp only [devLoop, Option.mem_def, Option.some.injEq] at hr
    subst hr
    simp
  | cons a rest ih =>
    intro m r hr
    unfold devLoop at hr
    split at hr
    · exact ih m r hr
    · split at hr
      · exact absurd hr (by simp)
      · split at hr
        · exact absurd hr (by simp)
        · exact ih m r hr
        · simp only [devStep] at hr
          split at hr
          · exact absurd hr (by simp)
          · rename_i m3 evs heq
            simp only [Option.mem_def, Option.some.injEq] at hr
            subst hr
            intro e he
            simp only [List.mem_cons] at he
            rcases he with he | he
            · subst he
              exact ⟨a, _, rfl⟩
            · exact ih _ _ heq e he

/-- Every effect of `update_devices` is a notify call carrying the
service's stored cycle timestamp. -/
theorem update_devices_events (s : InverterService) (data : GinlongData)
    (now : Time) :
    ∀ r ∈ s.update_devices data now, ∀ e ∈ r.2,
      ∃ sn a v, e = Event.notify sn a v s.last_updated := by
  intro r hr
  unfold InverterService.update_devices at hr
  split at hr
  · exact absurd hr (by simp)
  · simp only [Option.mem_def, Option.some.injEq] at hr
    subst hr
    simp
  · split at hr
    · simp only [Option.mem_def, Option.some.injEq] at hr
      subst hr
      simp
    · split at hr
      · exact absurd hr (by simp)
      · rename_i heq
        simp only [Option.mem_def, Option.some.injEq] at hr
        subst hr
        intro e he
        obtain ⟨a, v, hev⟩ :=
          devLoop_events _ data now s.last_updated _ _ _ heq e he
        exact ⟨_, a, v, hev⟩

/-- The exact result of a logout: capability offline, login timestamp
cleared, one `apiLogout` effect. -/
theorem logout_op_result (s : InverterService) (a : ApiState)
    (ha : s.api = some a) :
    s.logout_op = some ({ s with
      api := some a.logout
      logintime := none }, [Event.apiLogout]) := by
  unfold InverterService.logout_op
  rw [ha]
  rfl

/-- The re-login age check emits at most an `apiLogout` effect. -/
theorem renewCheck_events (s : InverterService) (c : Clock) :
    ∀ r ∈ renewCheck s c, r.2.1 = [] ∨ r.2.1 = [Event.apiLogout] := by
  intro r hr
  unfold renewCheck at hr
  split at hr
  · simp only [Option.mem_def, Option.some.injEq] at hr
    subst hr
    exact Or.inl rfl
  · dsimp only at hr
    split at hr
    · split at hr
      · exact absurd hr (by simp)
      · rename_i s1 evs1 hlo
        simp only [Option.mem_def, Option.some.injEq] at hr
        subst hr
        cases hapi : s.api with
        | none =>
          unfold InverterService.logout_op at hlo
          rw [hapi] at hlo
          exact absurd hlo (by simp)
        | some a =>
          rw [logout_op_result s a hapi] at hlo
          simp only [Option.some.injEq, Prod.mk.injEq] at hlo
          exact Or.inr hlo.2.symm
    · simp only [Option.mem_def, Option.some.injEq] at hr
      subst hr
      exact Or.inl rfl

/-- Every effect of the per-device update loop is a notify call or an
`apiLogout`; in particular the loop itself never schedules anything. -/
theorem updateLoop_events (serials : List String) :
    ∀ s c u, ∀ r ∈ updateLoop s c u serials, ∀ e ∈ r.2.2.2,
      (∃ sn a v ts, e = Event.notify sn a v ts) ∨ e = Event.apiLogout := by
  induction serials with
  | nil =>
    intro s c u r hr
    simp only [updateLoop, Option.mem_def, Option.some.injEq] at hr
    subst hr
    simp
  | cons sn rest ih =>
    intro s c u r hr
    unfold updateLoop at hr
    split at hr
    · exact absurd hr (by simp)
    · split at hr
      · dsimp only at hr
        split at hr
        · exact absurd hr (by simp)
        · rename_i s2 evs hud
          split at hr
          · exact absurd hr (by simp)
          · rename_i s3 c3 u3 evs3 hloop
            simp only [Option.mem_def, Option.some.injEq] at hr
            subst hr
            intro e he
            simp only [List.mem_append] at he
            rcases he with he | he
            · obtain ⟨sa, aa, va, hev⟩ :=
                update_devices_events _ _ _ _ hud e he
              exact Or.inl ⟨sa, aa, va, _, hev⟩
            · exact ih _ _ _ _ hloop e he
      · split at hr
        · exact absurd hr (by simp)
        · rename_i s1 evs1 hlo
          split at hr
          · exact absurd hr (by simp)
          · rename_i s3 c3 u3 evs3 hloop
            simp only [Option.mem_def, Option.some.injEq] at hr
            subst hr
            intro e he
            simp only [List.mem_append] at he
            rcases he with he | he
            · cases hapi : s.api with
              | none =>
                unfold InverterService.logout_op at hlo
                rw [hapi] at hlo
                exact absurd hlo (by simp)
              | some a =>
                rw [logout_op_result s a hapi] at hlo
                simp only [Option.some.injEq, Prod.mk.injEq] at hlo
                rw [← hlo.2] at he
                simp only [List.mem_singleton] at he
                exact Or.inr he
            · exact ih _ _ _ _ hloop e he

/-- The status returned by the update loop is the initial one (empty serial
list) or one of the two refresh constants. -/
theorem updateLoop_status_init (serials : List String) :
    ∀ s c u, ∀ r ∈ updateLoop s c u serials,
      r.2.2.1 = u ∨ r.2.2.1 = SCHEDULE_NOK ∨ r.2.2.1 = SCHEDULE_OK := by
  induction serials with
  | nil =>
    intro s c u r hr
    simp only [updateLoop, Option.mem_def, Option.some.injEq] at hr
    subst hr
    exact Or.inl rfl
  | cons sn rest ih =>
    intro s c u r hr
    unfold updateLoop at hr
    split at hr
    · exact absurd hr (by simp)
    · split at hr
      · dsimp only at hr
        split at hr
        · exact absurd hr (by simp)
        · split at hr
          · exact absurd hr (by simp)
          · rename_i s3 c3 u3 evs3 hloop
            simp only [Option.mem_def, Option.some.injEq] at hr
            subst hr
            rcases ih _ _ _ _ hloop with h | h | h
            · exact Or.inr (Or.inr h)
            · exact Or.inr (Or.inl h)
            · exact Or.inr (Or.inr h)
      · split at hr
        · exact absurd hr (by simp)
        · split at hr
          · exact absurd hr (by simp)
          · rename_i s3 c3 u3 evs3 hloop
            simp only [Option.mem_def, Option.some.injEq] at hr
            subst hr
            rcases ih _ _ _ _ hloop with h | h | h
            · exact Or.inr (Or.inl h)
            · exact Or.inr (Or.inl h)
            · exact Or.inr (Or.inr h)

/-- C4, counterexample data: two devices each exposing one subscribed
attribute `p`. -/
def dataTwoA : GinlongData :=
  ⟨[(INVERTER_SERIAL, AttrValue.str "A"), ("p", AttrValue.num 5)]⟩

/-- Second device snapshot for the C4 scenario. -/
def dataTwoB : GinlongData :=
  ⟨[(INVERTER_SERIAL, AttrValue.str "B"), ("p", AttrValue.num 5)]⟩

/-- An online capability reporting two devices, both fetchable. -/
def apiTwoDev : ApiState :=
  { is_online := true, login_result := true, inverters := some ["A", "B"]
    fetch := fun sn =>
      if sn = "A" then some dataTwoA
      else if sn = "B" then some dataTwoB else none }

/-- A service subscribed to attribute `p` of both devices. -/
def svcTwoDev : InverterService :=
  { baseSvc with
    api := some apiTwoDev
    subscriptions := [("A", [("p", subT)]), ("B", [("p", subT)])] }

/-- A clock on which each `datetime.now()` query returns one second more
than the previous one. -/
def tickClock : Clock := ⟨fun i => i, 0⟩

/-- C4, counterexample: the claim says all notify calls of one cycle carry
one timestamp captured at the start of the cycle.  But `async_update`
re-stamps `_last_updated` with a fresh `datetime.now()` per device
(line 174), so on a clock that advances between queries the two devices'
notify calls carry different timestamps within the same cycle. -/
theorem claim_C4_counterexample :
    (svcTwoDev.async_update tickClock).map
        (fun r => notifyTimestamps r.2.1) = some [some 0, some 2] ∧
    (some 0 : Option Time) ≠ some 2 :=
  ⟨rfl, by decide⟩

/-- C4, amended: within the dispatch of one device's snapshot every notify
call carries the same single timestamp — the service's stored
last-updated instant, which `async_update` refreshes just before each
device's dispatch; devices dispatched later in the same cycle may carry a
later timestamp. -/
theorem claim_C4_per_device_timestamp (s : InverterService)
    (data : GinlongData) (now : Time) :
    ∀ r ∈ s.update_devices data now, ∀ sn a v ts,
      Event.notify sn a v ts ∈ r.2 → ts = s.last_updated := by
  intro r hr sn a v ts hmem
  obtain ⟨sn2, a2, v2, hev⟩ := update_devices_events s data now r hr _ hmem
  simp only [Event.notify.injEq] at hev
  exact hev.2.2.2

/-- A one-device service whose cycle timestamp is 7. -/
def svcOneDev : InverterService :=
  { baseSvc with
    last_updated := some 7
    subscriptions := [("A", [("p", subT)])] }

/-- The state of `svcOneDev` after dispatching `dataTwoA`. -/
def svcOneDev2 : InverterService :=
  { svcOneDev with
    subscriptions := [("A", [("p", ⟨some 7, fun _ _ => true⟩)])] }

/-- C4, witness: the per-device shared timestamp at a concrete dispatch. -/
theorem claim_C4_witness :
    (some 7 : Option Time) = svcOneDev.last_updated :=
  claim_C4_per_device_timestamp svcOneDev dataTwoA 0
    (svcOneDev2, [Event.notify "A" "p" (AttrValue.num 5) (some 7)]) rfl
    "A" "p" (AttrValue.num 5) (some 7) (by simp)

/-- A concatenation of schedule-free traces around one scheduling event
filters down to exactly that event. -/
theorem filter_schedUpd_concat (evs0 evs1 evs2 : List Event) (u : Nat)
    (h0 : ∀ e ∈ evs0, isSchedUpd e = false)
    (h1 : ∀ e ∈ evs1, isSchedUpd e = false)
    (h2 : ∀ e ∈ evs2, isSchedUpd e = false) :
    (evs0 ++ evs1 ++ [Event.scheduledUpdate u] ++ evs2).filter isSchedUpd =
      [Event.scheduledUpdate u] := by
  have e0 : evs0.filter isSchedUpd = [] := by
    rw [List.filter_eq_nil_iff]; intro a ha; simp [h0 a ha]
  have e1 : evs1.filter isSchedUpd = [] := by
    rw [List.filter_eq_nil_iff]; intro a ha; simp [h1 a ha]
  have e2 : evs2.filter isSchedUpd = [] := by
    rw [List.filter_eq_nil_iff]; intro a ha; simp [h2 a ha]
  simp [List.filter_append, e0, e1, e2, isSchedUpd]

/-- Events reported by `updateLoop` are never scheduling events. -/
theorem updateLoop_no_sched (serials : List String) (s : InverterService)
    (c : Clock) (u : Nat) :
    ∀ r ∈ updateLoop s c u serials, ∀ e ∈ r.2.2.2, isSchedUpd e = false := by
  intro r hr e he
  rcases updateLoop_events serials s c u r hr e he with ⟨sn, a, v, ts, hev⟩ | hev <;>
    subst hev <;> rfl

/-- Events reported by `renewCheck` are never scheduling events. -/
theorem renewCheck_no_sched (s : InverterService) (c : Clock) :
    ∀ r ∈ renewCheck s c, ∀ e ∈ r.2.1, isSchedUpd e = false := by
  intro r hr e he
  rcases renewCheck_events s c r hr with hev | hev <;> rw [hev] at he <;>
    simp only [List.not_mem_nil, List.mem_singleton] at he
  subst he
  rfl

/-- An online capability whose serial list is unavailable
(`inverters = None`). -/
def apiNoInv : ApiState :=
  { is_online := true, login_result := true, inverters := none
    fetch := fun _ => none }

/-- A service holding `apiNoInv`. -/
def svcNoInv : InverterService := { baseSvc with api := some apiNoInv }

/-- C3, counterexample: the claim says every `async_update` invocation
schedules the next cycle 1 minute ahead, including when the serial list is
unavailable.  But with a successful login and `inverters = None` the
source returns at line 168 before `schedule_update` is ever called: the
cycle emits no events at all (and, separately, a fully successful cycle
passes `SCHEDULE_OK = 2` as the minutes argument, scheduling 2 minutes
ahead, not 1). -/
theorem claim_C3_counterexample :
    (svcNoInv.async_update (constClock 0)).map
      (fun r => (r.2.1, r.2.2.1)) = some ([], SCHEDULE_NOK) := rfl

/-- C3, amended: every completed `async_update` emits exactly one
scheduling event, whose delay in minutes equals the returned status
(`SCHEDULE_NOK = 1` on failure, `SCHEDULE_OK = 2` on success) — except
when the login succeeds and the capability reports no serial list, in
which case the cycle returns `SCHEDULE_NOK` without scheduling anything. -/
theorem claim_C3_scheduling_amended (s : InverterService) (c : Clock)
    (r : InverterService × List Event × Nat × Clock)
    (hr : s.async_update c = some r) :
    (r.2.1.filter isSchedUpd = [Event.scheduledUpdate r.2.2.1] ∧
      (r.2.2.1 = SCHEDULE_NOK ∨ r.2.2.1 = SCHEDULE_OK)) ∨
    (r.2.1.filter isSchedUpd = [] ∧ r.2.2.1 = SCHEDULE_NOK ∧
      ∃ a, r.1.api = some a ∧ a.inverters = none) := by
  unfold InverterService.async_update at hr
  split at hr
  · exact absurd hr (by simp)
  · rename_i s1 ok evs0 c1 hlo
    have h0 : ∀ e ∈ evs0, isSchedUpd e = false := by
      intro e he
      rcases login_op_events s c _ hlo with h | h
      · replace h : evs0 = [] := h
        rw [h] at he
        simp at he
      · replace h : evs0 = [Event.apiLogin] := h
        rw [h] at he
        simp only [List.mem_singleton] at he
        subst he
        rfl
    cases ok
    · simp only [Bool.false_eq_true, if_false] at hr
      split at hr
      · exact absurd hr (by simp)
      · rename_i s3 evs2 c3 hrenew
        simp only [Option.some.injEq] at hr
        subst hr
        refine Or.inl ⟨?_, Or.inl rfl⟩
        have := filter_schedUpd_concat evs0 [] evs2 SCHEDULE_NOK h0 (by simp)
          (renewCheck_no_sched _ _ _ hrenew)
        simpa using this
    · simp only [eq_self_iff_true, if_true] at hr
      split at hr
      · exact absurd hr (by simp)
      · rename_i a1 ha1
        split at hr
        · rename_i hinv1
          simp only [Option.some.injEq] at hr
          subst hr
          refine Or.inr ⟨?_, rfl, a1, ha1, hinv1⟩
          rw [List.filter_eq_nil_iff]
          intro e he
          simp [h0 e he]
        · rename_i serials hinv1
          split at hr
          · exact absurd hr (by simp)
          · rename_i s2 c2 upd evs1 hloop
            split at hr
            · exact absurd hr (by simp)
            · rename_i s3 evs2 c3 hrenew
              simp only [Option.mem_def, Option.some.injEq] at hr
              subst hr
              refine Or.inl ⟨?_, ?_⟩
              · exact filter_schedUpd_concat evs0 evs1 evs2 upd h0
                  (updateLoop_no_sched serials _ _ SCHEDULE_NOK _ hloop)
                  (renewCheck_no_sched s2 c2 _ hrenew)
              · rcases updateLoop_status_init serials _ _ SCHEDULE_NOK _ hloop with
                  h | h | h
                · exact Or.inl h
                · exact Or.inl h
                · exact Or.inr h

/-- An online capability reporting one device whose fetch always fails. -/
def apiFetchFail : ApiState :=
  { is_online := true, login_result := true, inverters := some ["A"]
    fetch := fun _ => none }

/-- A service holding `apiFetchFail`. -/
def svcFetchFail : InverterService := { baseSvc with api := some apiFetchFail }

/-- The state of `svcFetchFail` after one cycle (session logged out). -/
def svcFetchFail2 : InverterService :=
  { baseSvc with api := some apiFetchFail.logout }

/-- C3, witness: the amended scheduling law at a concrete one-device cycle
whose fetch fails (status 1, exactly one 1-minute schedule event). -/
theorem claim_C3_witness :
    ((svcFetchFail.async_update (constClock 0)).map
        (fun r => (r.2.1.filter isSchedUpd, r.2.2.1)) =
      some ([Event.scheduledUpdate SCHEDULE_NOK], SCHEDULE_NOK)) ∧
    ((([Event.apiLogout, Event.scheduledUpdate 1] : List Event).filter
          isSchedUpd = [Event.scheduledUpdate (1 : Nat)] ∧
        ((1 : Nat) = SCHEDULE_NOK ∨ (1 : Nat) = SCHEDULE_OK)) ∨
      (([Event.apiLogout, Event.scheduledUpdate 1] : List Event).filter
          isSchedUpd = [] ∧ (1 : Nat) = SCHEDULE_NOK ∧
        ∃ a, svcFetchFail2.api = some a ∧ a.inverters = none)) :=
  ⟨rfl, claim_C3_scheduling_amended svcFetchFail (constClock 0)
    (svcFetchFail2, [Event.apiLogout, Event.scheduledUpdate 1], 1,
      constClock 0) rfl⟩

/-- A device whose fetch fails anywhere in the loop triggers a logout
during the cycle. -/
theorem updateLoop_logout_mem (serials : List String) :
    ∀ s c u a, s.api = some a →
      ∀ r ∈ updateLoop s c u serials, ∀ sn ∈ serials, a.fetch sn = none →
        Event.apiLogout ∈ r.2.2.2 := by
  induction serials with
  | nil =>
    intro s c u a ha r hr sn hsn
    simp at hsn
  | cons sn0 rest ih =>
    intro s c u a ha r hr sn hsn hfn
    unfold updateLoop at hr
    split at hr
    · exact absurd hr (by simp)
    · rename_i a0 ha0
      obtain rfl : a = a0 := by rw [ha] at ha0; exact Option.some.inj ha0
      split at hr
      · rename_i data hfd
        dsimp only at hr
        split at hr
        · exact absurd hr (by simp)
        · rename_i s2 evs hud
          split at hr
          · exact absurd hr (by simp)
          · rename_i s3 c3 u3 evs3 hloop
            simp only [Option.mem_def, Option.some.injEq] at hr
            subst hr
            simp only [List.mem_cons] at hsn
            rcases hsn with rfl | hsn
            · rw [hfn] at hfd
              exact absurd hfd (by simp)
            · have h2 : s2.api = s.api := (update_devices_frame _ _ _ _ hud).1
              have hmem := ih s2 _ SCHEDULE_OK a (h2.trans ha) _ hloop sn hsn hfn
              simp only [List.mem_append]
              exact Or.inr hmem
      · rename_i hfd
        split at hr
        · exact absurd hr (by simp)
        · rename_i s1 evs1 hlo
          split at hr
          · exact absurd hr (by simp)
          · rename_i s3 c3 u3 evs3 hloop
            simp only [Option.mem_def, Option.some.injEq] at hr
            subst hr
            rw [logout_op_result s a ha] at hlo
            simp only [Option.some.injEq, Prod.mk.injEq] at hlo
            simp only [List.mem_append]
            left
            rw [← hlo.2]
            simp

/-- The status the update loop returns is decided by the last device
processed: `SCHEDULE_NOK` if its fetch failed, `SCHEDULE_OK` if it
succeeded, regardless of earlier failures. -/
theorem updateLoop_final_status (serials : List String) :
    ∀ s c u a, s.api = some a →
      ∀ r ∈ updateLoop s c u serials, ∀ l sl, serials = l ++ [sl] →
        r.2.2.1 = if a.fetch sl = none then SCHEDULE_NOK else SCHEDULE_OK := by
  induction serials with
  | nil =>
    intro s c u a ha r hr l sl hl
    exact absurd hl (by simp)
  | cons sn0 rest ih =>
    intro s c u a ha r hr l sl hl
    unfold updateLoop at hr
    split at hr
    · exact absurd hr (by simp)
    · rename_i a0 ha0
      obtain rfl : a = a0 := by rw [ha] at ha0; exact Option.some.inj ha0
      cases l with
      | nil =>
        simp only [List.nil_append, List.cons.injEq] at hl
        obtain ⟨rfl, rfl⟩ := hl
        split at hr
        · rename_i data hfd
          dsimp only at hr
          split at hr
          · exact absurd hr (by simp)
          · rename_i s2 evs hud
            split at hr
            · exact absurd hr (by simp)
            · rename_i s3 c3 u3 evs3 hloop
              simp only [updateLoop, Option.some.injEq, Prod.mk.injEq] at hloop
              simp only [Option.mem_def, Option.some.injEq] at hr
              subst hr
              rw [← hloop.2.2.1]
              simp [hfd]
        · rename_i hfd
          split at hr
          · exact absurd hr (by simp)
          · rename_i s1 evs1 hlo
            split at hr
            · exact absurd hr (by simp)
            · rename_i s3 c3 u3 evs3 hloop
              simp only [updateLoop, Option.some.injEq, Prod.mk.injEq] at hloop
              simp only [Option.mem_def, Option.some.injEq] at hr
              subst hr
              rw [← hloop.2.2.1]
              simp [hfd]
      | cons x l2 =>
        simp only [List.cons_append, List.cons.injEq] at hl
        obtain ⟨rfl, hrest⟩ := hl
        split at hr
        · rename_i data hfd
          dsimp only at hr
          split at hr
          · exact absurd hr (by simp)
          · rename_i s2 evs hud
            split at hr
            · exact absurd hr (by simp)
            · rename_i s3 c3 u3 evs3 hloop
              simp only [Option.mem_def, Option.some.injEq] at hr
              subst hr
              have h2 : s2.api = s.api := (update_devices_frame _ _ _ _ hud).1
              exact ih s2 _ SCHEDULE_OK a (h2.trans ha) _ hloop l2 sl hrest
        · rename_i hfd
          split at hr
          · exact absurd hr (by simp)
          · rename_i s1 evs1 hlo
            split at hr
            · exact absurd hr (by simp)
            · rename_i s3 c3 u3 evs3 hloop
              simp only [Option.mem_def, Option.some.injEq] at hr
              subst hr
              rw [logout_op_result s a ha] at hlo
              simp only [Option.some.injEq, Prod.mk.injEq] at hlo
              have h1 : s1.api = some a.logout := by
                rw [← hlo.1]
              exact ih s1 _ SCHEDULE_NOK a.logout h1 _ hloop l2 sl hrest

/-- A snapshot holding only the serial attribute of device B. -/
def dataOnlyB : GinlongData := ⟨[(INVERTER_SERIAL, AttrValue.str "B")]⟩

/-- An online capability with two devices: fetching A fails, fetching B
succeeds. -/
def apiFailA : ApiState :=
  { is_online := true, login_result := true, inverters := some ["A", "B"]
    fetch := fun sn => if sn = "B" then some dataOnlyB else none }

/-- A service holding `apiFailA`. -/
def svcFailA : InverterService := { baseSvc with api := some apiFailA }

/-- C7, counterexample: the claim says a failed per-device fetch makes the
whole cycle's returned status `NOT_OK`.  Here device A's fetch fails
(logout is indeed triggered), but device B's later success overwrites the
status, so the cycle returns `SCHEDULE_OK`. -/
theorem claim_C7_counterexample :
    (svcFailA.async_update (constClock 0)).map
        (fun r => (r.2.1, r.2.2.1)) =
      some ([Event.apiLogout, Event.scheduledUpdate SCHEDULE_OK],
        SCHEDULE_OK) ∧
    SCHEDULE_OK ≠ SCHEDULE_NOK :=
  ⟨rfl, by decide⟩

/-- C7, amended: if any device's fetch returns no data, `endSession`
(logout) is invoked during that cycle; the cycle's returned status is the
outcome of the last device processed, so it is `NOT_OK` whenever the last
device's fetch failed — but a later successful fetch overwrites an earlier
failure's status. -/
theorem claim_C7_fetch_failure_amended (s : InverterService) (a : ApiState)
    (c : Clock) (serials : List String) (sn : String)
    (r : InverterService × List Event × Nat × Clock)
    (ha : s.api = some a) (ho : a.is_online = true)
    (hinv : a.inverters = some serials)
    (hr : s.async_update c = some r)
    (hsn : sn ∈ serials) (hf : a.fetch sn = none) :
    Event.apiLogout ∈ r.2.1 ∧
    (∀ l sl, serials = l ++ [sl] → a.fetch sl = none →
      r.2.2.1 = SCHEDULE_NOK) := by
  have he : s.login_op c = some (s, true, [], c) := by
    rcases login_op_cases s c a ha with ⟨-, h⟩ | ⟨hf2, -, -⟩ | ⟨hf2, -, -⟩
    · exact h
    · rw [ho] at hf2; exact absurd hf2 (by simp)
    · rw [ho] at hf2; exact absurd hf2 (by simp)
  unfold InverterService.async_update at hr
  split at hr
  · exact absurd hr (by simp)
  · rename_i s1 ok evs0 c1 hlo
    rw [he] at hlo
    simp only [Option.some.injEq, Prod.mk.injEq] at hlo
    obtain ⟨rfl, rfl, rfl, rfl⟩ := hlo
    simp only [eq_self_iff_true, if_true] at hr
    split at hr
    · exact absurd hr (by simp)
    · rename_i a1 ha1
      obtain rfl : a = a1 := by rw [ha] at ha1; exact Option.some.inj ha1
      split at hr
      · rename_i hinv1
        rw [hinv] at hinv1
        exact absurd hinv1 (by simp)
      · rename_i serials1 hinv1
        obtain rfl : serials = serials1 := by
          rw [hinv] at hinv1; exact Option.some.inj hinv1
        split at hr
        · exact absurd hr (by simp)
        · rename_i s2 c2 upd evs1 hloop
          split at hr
          · exact absurd hr (by simp)
          · rename_i s3 evs2 c3 hrenew
            simp only [Option.some.injEq] at hr
            subst hr
            constructor
            · have hm := updateLoop_logout_mem serials s c SCHEDULE_NOK a ha
                _ hloop sn hsn hf
              simp only [List.nil_append, List.mem_append]
              exact Or.inl (Or.inl hm)
            · intro l sl hls hfl
              have hst := updateLoop_final_status serials s c SCHEDULE_NOK a ha
                _ hloop l sl hls
              replace hst : upd =
                  if a.fetch sl = none then SCHEDULE_NOK else SCHEDULE_OK := hst
              rw [hfl] at hst
              simpa using hst

/-- C7, witness: the amended fetch-failure law at a concrete one-device
cycle whose only fetch fails. -/
theorem claim_C7_witness :
    Event.apiLogout ∈ ([Event.apiLogout, Event.scheduledUpdate 1] :
      List Event) ∧
    (∀ l sl, (["A"] : List String) = l ++ [sl] →
      apiFetchFail.fetch sl = none → (1 : Nat) = SCHEDULE_NOK) :=
  claim_C7_fetch_failure_amended svcFetchFail apiFetchFail (constClock 0)
    ["A"] "A"
    (svcFetchFail2, [Event.apiLogout, Event.scheduledUpdate 1], 1,
      constClock 0)
    rfl rfl rfl rfl (by simp) rfl

/-- A discovery fetch never changes the registered discovery callback or
cookie. -/
theorem do_discover_frame (s : InverterService) (c : Clock) :
    ∀ r ∈ s.do_discover c,
      r.1.discovery_callback = s.discovery_callback ∧
      r.1.discovery_cookie = s.discovery_cookie := by
  intro r hr
  unfold InverterService.do_discover at hr
  split at hr
  · exact absurd hr (by simp)
  · rename_i s1 ok evs c1 hlo
    have hfr := login_op_frame s c _ hlo
    cases ok
    · simp only [Bool.false_eq_true, if_false] at hr
      simp only [Option.mem_def, Option.some.injEq] at hr
      subst hr
      exact ⟨hfr.1, hfr.2.1⟩
    · simp only [eq_self_iff_true, if_true] at hr
      split at hr
      · exact absurd hr (by simp)
      · rename_i a ha2
        split at hr
        · simp only [Option.mem_def, Option.some.injEq] at hr
          subst hr
          exact ⟨hfr.1, hfr.2.1⟩
        · simp only [Option.mem_def, Option.some.injEq] at hr
          subst hr
          exact ⟨hfr.1, hfr.2.1⟩

/-- A discovery fetch emits at most the `apiLogin` effect: in particular it
neither schedules nor invokes callbacks itself. -/
theorem do_discover_events (s : InverterService) (c : Clock) :
    ∀ r ∈ s.do_discover c, r.2.2.1 = [] ∨ r.2.2.1 = [Event.apiLogin] := by
  intro r hr
  unfold InverterService.do_discover at hr
  split at hr
  · exact absurd hr (by simp)
  · rename_i s1 ok evs c1 hlo
    have hev := login_op_events s c _ hlo
    replace hev : evs = [] ∨ evs = [Event.apiLogin] := hev
    cases ok
    · simp only [Bool.false_eq_true, if_false] at hr
      simp only [Option.mem_def, Option.some.injEq] at hr
      subst hr
      exact hev
    · simp only [eq_self_iff_true, if_true] at hr
      split at hr
      · exact absurd hr (by simp)
      · rename_i a ha2
        split at hr
        · simp only [Option.mem_def, Option.some.injEq] at hr
          subst hr
          exact hev
        · simp only [Option.mem_def, Option.some.injEq] at hr
          subst hr
          exact hev

/-- C8, counterexample: the claim says a non-empty discovery result always
invokes the registered callback.  With a registered callback and a
registered but empty cookie dict (falsy in Python), a non-empty result
invokes nothing — and no retry is scheduled either: the event trace is
empty. -/
def svcCkEmpty : InverterService :=
  { baseSvc with
    api := some apiTwoDev
    discovery_callback := some 7
    discovery_cookie := some [] }

/-- C8, counterexample theorem (see `svcCkEmpty`). -/
theorem claim_C8_counterexample :
    (svcCkEmpty.do_discover (constClock 0)).map (fun r => r.2.1) =
      some [("A", [INVERTER_SERIAL, "p"]), ("B", [INVERTER_SERIAL, "p"])] ∧
    svcCkEmpty.discovery_callback = some 7 ∧
    (svcCkEmpty.async_discover (constClock 0)).map (fun r => r.2.1) =
      some [] :=
  ⟨rfl, rfl, rfl⟩

/-- C8, amended: with a registered callback and a registered non-empty
cookie, an empty discovery result schedules exactly one retry 60 seconds
later and preserves callback and cookie for it; a non-empty result invokes
the callback with the result and the cookie, and both remain registered
afterwards. -/
theorem claim_C8_discovery_retry (s : InverterService) (c : Clock)
    (s1 : InverterService) (caps : Capabilities) (evs0 : List Event)
    (c1 : Clock) (cb : Nat) (k : Cookie)
    (h : s.do_discover c = some (s1, caps, evs0, c1))
    (hcb : s.discovery_callback = some cb)
    (hck : s.discovery_cookie = some k) (hk : k ≠ []) :
    (caps = [] →
      s.async_discover c =
        some (s1, evs0 ++ [Event.scheduledDiscovery 60], c1) ∧
      (evs0 ++ [Event.scheduledDiscovery 60]).filter isSchedDisc =
        [Event.scheduledDiscovery 60] ∧
      s1.discovery_callback = some cb ∧ s1.discovery_cookie = some k) ∧
    (caps ≠ [] →
      s.async_discover c =
        some (s1, evs0 ++ [Event.callbackInvoked cb caps k], c1) ∧
      s1.discovery_callback = some cb ∧ s1.discovery_cookie = some k) := by
  have hfr := do_discover_frame s c _ h
  have hcb1 : s1.discovery_callback = some cb := hfr.1.trans hcb
  have hck1 : s1.discovery_cookie = some k := hfr.2.trans hck
  have hev := do_discover_events s c _ h
  replace hev : evs0 = [] ∨ evs0 = [Event.apiLogin] := hev
  constructor
  · intro hcaps
    subst hcaps
    refine ⟨?_, ?_, hcb1, hck1⟩
    · unfold InverterService.async_discover
      rw [h]
      rfl
    · rcases hev with hev | hev <;> rw [hev] <;> rfl
  · intro hcaps
    refine ⟨?_, hcb1, hck1⟩
    unfold InverterService.async_discover
    rw [h]
    have hne : caps.isEmpty = false := by
      cases caps with
      | nil => exact absurd rfl hcaps
      | cons x xs => rfl
    have hke : k.isEmpty = false := by
      cases k with
      | nil => exact absurd rfl hk
      | cons x xs => rfl
    dsimp only
    rw [hne, hcb1, hck1]
    dsimp only
    rw [hke]
    rfl

/-- An empty-result discovery service with a registered callback and a
non-empty cookie. -/
def svcDiscReg : InverterService :=
  { baseSvc with
    api := some apiDiscW
    discovery_callback := some 9
    discovery_cookie := some [("k", 1)] }

/-- `svcDiscReg` after one discovery fetch (login timestamp refreshed). -/
def svcDiscRegAfter : InverterService :=
  { svcDiscReg with logintime := some 0 }

/-- The frozen zero clock after one query. -/
def zeroClock1 : Clock := ⟨fun _ => 0, 1⟩

/-- C8, witness: the amended discovery law at a concrete empty-result
service. -/
theorem claim_C8_witness :
    (([] : Capabilities) = [] →
      svcDiscReg.async_discover (constClock 0) =
        some (svcDiscRegAfter, [] ++ [Event.scheduledDiscovery 60],
          zeroClock1) ∧
      (([] : List Event) ++ [Event.scheduledDiscovery 60]).filter
        isSchedDisc = [Event.scheduledDiscovery 60] ∧
      svcDiscRegAfter.discovery_callback = some 9 ∧
      svcDiscRegAfter.discovery_cookie = some [("k", 1)]) ∧
    (([] : Capabilities) ≠ [] →
      svcDiscReg.async_discover (constClock 0) =
        some (svcDiscRegAfter,
          [] ++ [Event.callbackInvoked 9 [] [("k", 1)]], zeroClock1) ∧
      svcDiscRegAfter.discovery_callback = some 9 ∧
      svcDiscRegAfter.discovery_cookie = some [("k", 1)]) :=
  claim_C8_discovery_retry svcDiscReg (constClock 0) svcDiscRegAfter [] []
    zeroClock1 9 [("k", 1)] rfl rfl rfl (by decide)

/-- C9, witness: the attribute-error behaviour applied at a concrete
clock. -/
theorem claim_C9_witness :
    (InverterService.init PortalConfig.other).async_update (constClock 0) =
      none :=
  claim_C9_incompatible_config.2.2.2 (constClock 0)

end SolisService
